import Mathlib

/-!
Verification of the whatsapp-api repository core logic.

Strings from the JavaScript source are modelled as `List Char`; absent
(`undefined`) request fields and headers are modelled as `Option (List Char)`.
The external messaging client is modelled as an outcome oracle, and the
observable calls the handlers make to external capabilities are recorded in an
explicit event trace.
-/

namespace WhatsappApi

/-- Whitespace recognised by the model of the JavaScript `String.prototype.trim`
(ASCII whitespace; the exotic Unicode space characters are elided). -/
def isJsWhitespace (c : Char) : Bool :=
  c == ' ' || c == '\t' || c == '\n' || c == '\r' || c == '\x0b' || c == '\x0c'

/-- Model of `str.trim()`: drop whitespace from both ends. -/
def trimChars (s : List Char) : List Char :=
  ((s.dropWhile isJsWhitespace).reverse.dropWhile isJsWhitespace).reverse

/-- Model of `str.split(sep)` for a one-character separator; on the empty
string it returns one empty segment, exactly as in JavaScript. -/
def splitOnChar (sep : Char) : List Char → List (List Char)
  | [] => [[]]
  | c :: rest =>
    if c = sep then [] :: splitOnChar sep rest
    else
      match splitOnChar sep rest with
      | [] => [[c]]
      | seg :: segs => (c :: seg) :: segs

/-- Model of `input.split(",")` used by `parseNumbers` (src/app.js line 350). -/
def splitOnComma : List Char → List (List Char) :=
  splitOnChar ','

/-- Model of `authHeader.split(" ")` used by `authenticateToken`
(src/app.js line 87). -/
def splitOnSpace : List Char → List (List Char) :=
  splitOnChar ' '

/-- Model of the regex `/^\d{9}$/` test (src/app.js line 352): exactly nine
decimal digits. -/
def isNineDigits (s : List Char) : Bool :=
  s.length == 9 && s.all Char.isDigit

/-- The fixed country-code "51" prepended by `parseNumbers`
(src/app.js line 353). -/
def countryCode : List Char :=
  ['5', '1']

/-- Embedding of `parseNumbers` (src/app.js lines 347-355).  The argument is
`none` for a null/undefined input; the JavaScript guard `if (!input)` is true
for null, undefined and the empty string. -/
def parseNumbers (input : Option (List Char)) : List (List Char) :=
  match input with
  | none => []
  | some s =>
    if s = [] then []
    else
      let numbers := ((splitOnComma s).map trimChars).filter isNineDigits
      let formattedNumbers := numbers.map (fun num => countryCode ++ num)
      if 0 < formattedNumbers.length then formattedNumbers else []

/-- The parser behaviour as worded in spec.md section 4.1: split on commas,
trim each segment, keep the nine-digit segments, prepend the country code,
preserving order and multiplicity. -/
def specParse (input : Option (List Char)) : List (List Char) :=
  match input with
  | none => []
  | some s =>
    (((splitOnComma s).map trimChars).filter isNineDigits).map
      (fun seg => countryCode ++ seg)

/-- Outcome of the auth middleware `authenticateToken`
(src/app.js lines 85-97). -/
inductive AuthResult where
  | allow
  | reject401
  | reject403
  deriving DecidableEq

/-- Model of `const token = authHeader && authHeader.split(" ")[1]`
(src/app.js line 87).  A missing header (`undefined`) short-circuits to
`undefined` (`none`); an empty-string header is falsy, so the conjunction
yields the empty string itself (`some []`), which is NOT `== null`; otherwise
the value is the second space-separated segment, `undefined` (`none`) when the
header has no second segment. -/
def tokenOf (authHeader : Option (List Char)) : Option (List Char) :=
  match authHeader with
  | none => none
  | some h => if h = [] then some [] else (splitOnSpace h).get? 1

/-- Embedding of `authenticateToken` (src/app.js lines 85-97): 401 when the
computed token is `== null`, otherwise allow exactly on string equality with
the configured secret, else 403. -/
def authenticateToken (apiToken : List Char) (authHeader : Option (List Char)) :
    AuthResult :=
  match tokenOf authHeader with
  | none => AuthResult.reject401
  | some token =>
    if token = apiToken then AuthResult.allow else AuthResult.reject403

theorem splitOnChar_ne_nil (sep : Char) (s : List Char) :
    splitOnChar sep s ≠ [] := by
  induction s with
  | nil => simp [splitOnChar]
  | cons c rest ih =>
    simp only [splitOnChar]
    split
    · simp
    · cases h : splitOnChar sep rest <;> simp

theorem splitOnChar_of_not_mem {sep : Char} {s : List Char} (hs : sep ∉ s) :
    splitOnChar sep s = [s] := by
  induction s with
  | nil => rfl
  | cons c rest ih =>
    have hc : ¬ c = sep := fun h => hs (h ▸ List.mem_cons_self c rest)
    have hrest : sep ∉ rest := fun h => hs (List.mem_cons_of_mem c h)
    simp only [splitOnChar, if_neg hc, ih hrest]

theorem splitOnChar_append {sep : Char} {a : List Char} (b : List Char)
    (ha : sep ∉ a) :
    splitOnChar sep (a ++ sep :: b) = a :: splitOnChar sep b := by
  induction a with
  | nil => simp [splitOnChar]
  | cons c rest ih =>
    have hc : ¬ c = sep := fun h => ha (h ▸ List.mem_cons_self c rest)
    have hrest : sep ∉ rest := fun h => ha (List.mem_cons_of_mem c h)
    simp only [List.cons_append, splitOnChar, if_neg hc, List.append_eq, ih hrest]

theorem dropWhile_eq_self_of_not (p : Char → Bool) (s : List Char)
    (h : ∀ c ∈ s, p c = false) : s.dropWhile p = s := by
  cases s with
  | nil => rfl
  | cons c rest => simp [List.dropWhile, h c (List.mem_cons_self c rest)]

theorem trimChars_eq_self {s : List Char}
    (h : ∀ c ∈ s, isJsWhitespace c = false) : trimChars s = s := by
  unfold trimChars
  rw [dropWhile_eq_self_of_not _ s h]
  rw [dropWhile_eq_self_of_not _ s.reverse (fun c hc => h c (List.mem_reverse.mp hc))]
  exact List.reverse_reverse s

theorem digit_not_ws (c : Char) (h : c.isDigit = true) :
    isJsWhitespace c = false := by
  cases hc : isJsWhitespace c
  · rfl
  · exfalso
    simp only [isJsWhitespace, Bool.or_eq_true, beq_iff_eq] at hc
    rcases hc with ((((h1 | h1) | h1) | h1) | h1) | h1 <;> subst h1 <;>
      exact absurd h (by decide)

theorem digit_ne_comma (c : Char) (h : c.isDigit = true) : c ≠ ',' := by
  intro he
  subst he
  exact absurd h (by decide)

theorem parseNumbers_eq_specParse (input : Option (List Char)) :
    parseNumbers input = specParse input := by
  cases input with
  | none => rfl
  | some s =>
    by_cases hs : s = []
    · subst hs; rfl
    · simp only [parseNumbers, specParse, if_neg hs]
      cases h : (((splitOnComma s).map trimChars).filter isNineDigits) with
      | nil => simp
      | cons x xs => simp

/-- Claim C3: for every input string, `parseNumbers` splits on commas, trims
each segment, keeps exactly the segments of exactly nine decimal digits,
prepends the fixed "51" country code, and returns them in input order with
duplicates retained; for null/empty input or when no segment validates it
returns the empty sequence. -/
theorem claim_C3 :
    (∀ input, parseNumbers input = specParse input) ∧
    parseNumbers none = [] ∧
    parseNumbers (some []) = [] ∧
    (∀ s : List Char,
      ((splitOnComma s).map trimChars).filter isNineDigits = [] →
      parseNumbers (some s) = []) := by
  refine ⟨parseNumbers_eq_specParse, rfl, rfl, ?_⟩
  intro s h
  rw [parseNumbers_eq_specParse]
  simp [specParse, h]

theorem claim_C3_witness :
    ((splitOnComma ['a', 'b', 'c']).map trimChars).filter isNineDigits = [] ∧
    parseNumbers (some ['a', 'b', 'c']) = [] :=
  ⟨by decide, claim_C3.2.2.2 ['a', 'b', 'c'] (by decide)⟩

/-- Claim C4 counterexample: the parser does NOT deduplicate.  On the input
"123456789,123456789" the canonical identifier "51123456789" appears twice in
the output, so the output is not duplicate-free as the claim states. -/
theorem claim_C4_counterexample :
    ¬ (parseNumbers
        (some (['1','2','3','4','5','6','7','8','9'] ++
               ',' :: ['1','2','3','4','5','6','7','8','9']))).Nodup := by
  decide

/-- Claim C4 (amended): the parser returns the canonical identifiers of the
valid segments in input order with duplicates retained, not a deduplicated
set: a valid nine-digit segment repeated in the input contributes one output
entry per occurrence. -/
theorem claim_C4_amended (seg : List Char) (h : isNineDigits seg = true) :
    parseNumbers (some (seg ++ ',' :: seg)) =
      [countryCode ++ seg, countryCode ++ seg] := by
  have hall : ∀ c ∈ seg, c.isDigit = true := by
    have h2 := (Bool.and_eq_true _ _).mp h
    simpa [List.all_eq_true] using h2.2
  have hnc : ',' ∉ seg := fun hm => digit_ne_comma _ (hall _ hm) rfl
  have hsplit : splitOnComma (seg ++ ',' :: seg) = [seg, seg] := by
    unfold splitOnComma
    rw [splitOnChar_append seg hnc, splitOnChar_of_not_mem hnc]
  have htrim : trimChars seg = seg :=
    trimChars_eq_self (fun c hc => digit_not_ws c (hall c hc))
  have hne : seg ++ ',' :: seg ≠ [] := by simp
  simp [parseNumbers, hne, hsplit, htrim, h]

theorem claim_C4_amended_witness :
    isNineDigits ['1','2','3','4','5','6','7','8','9'] = true ∧
    parseNumbers
        (some (['1','2','3','4','5','6','7','8','9'] ++
               ',' :: ['1','2','3','4','5','6','7','8','9'])) =
      [countryCode ++ ['1','2','3','4','5','6','7','8','9'],
       countryCode ++ ['1','2','3','4','5','6','7','8','9']] :=
  ⟨by decide, claim_C4_amended ['1','2','3','4','5','6','7','8','9'] (by decide)⟩

/-- Outcome of one invocation of the external send capability
(`client.sendMessage`), as observed by the handlers: either a sent message
handle carrying `msgSent.id.id`, or a thrown error carrying `error.message`. -/
inductive SendOutcome where
  | success (messageId : List Char)
  | failure (errorMessage : List Char)
  deriving DecidableEq

/-- Per-recipient result record pushed by the dispatch loops: either
`{to, messageId, status: "sent"}` or `{to, status: "failed", error}`. -/
inductive MessageResult where
  | sent (toChat : List Char) (messageId : List Char)
  | failed (toChat : List Char) (errorMessage : List Char)
  deriving DecidableEq

/-- Observable calls a handler makes to external capabilities: one media
preparation (the `MessageMedia.fromUrl` await or the `MessageMedia`
constructor), or one `client.sendMessage` invocation. -/
inductive Event where
  | prepareMedia
  | send (chatId : List Char)
  deriving DecidableEq

/-- The `summary` object of the 200 response (src/app.js lines 202-206). -/
structure Summary where
  total_requested : Nat
  total_sent : Nat
  total_failed : Nat
  deriving DecidableEq

/-- The `results` object of the 200 response (src/app.js lines 207-210). -/
structure ResultsBody where
  sent : List MessageResult
  failed : List MessageResult
  deriving DecidableEq

/-- An HTTP response of the send routes.  `success` is `none` for the response
bodies that carry no `success` field (the 413 body and the
no-valid-numbers 400 body); the free-text `error` fields are elided. -/
structure ApiResponse where
  status : Nat
  success : Option Bool
  summary : Option Summary
  results : Option ResultsBody
  deriving DecidableEq

/-- A resolved media value: the concrete mimetype+data form a
`MessageMedia` object carries. -/
structure Media where
  mimetype : List Char
  mediaData : List Char
  deriving DecidableEq

/-- The oracle giving the outcome of the external send capability for the
call at a given position of the validated list, addressed to a given chat id. -/
abbrev SendOracle := Nat → List Char → SendOutcome

/-- Model of `const chatId = `...`${number}@c.us`` (src/app.js line 177). -/
def chatIdOf (number : List Char) : List Char :=
  number ++ ['@', 'c', '.', 'u', 's']

/-- JavaScript truthiness of a string-or-undefined request field: false for
`undefined` and for the empty string. -/
def jsTruthy : Option (List Char) → Bool
  | none => false
  | some s => !s.isEmpty

/-- The `MAX_MESSAGE_LENGTH` constant (src/app.js line 8). -/
def MAX_MESSAGE_LENGTH : Nat := 1000

/-- `List.map` carrying the element index, as `Array.prototype.map((x, i) =>
...)` does in the Promise.all variant (src/unnamed/part_002 line 174). -/
def mapWithIndex (f : Nat → α → β) : Nat → List α → List β
  | _, [] => []
  | i, a :: as => f i a :: mapWithIndex f (i + 1) as

/-- The result record produced for the recipient at a given index, determined
by the send oracle. -/
def resultOf (send : SendOracle) (i : Nat) (number : List Char) : MessageResult :=
  match send i (chatIdOf number) with
  | SendOutcome.success mid => MessageResult.sent (chatIdOf number) mid
  | SendOutcome.failure err => MessageResult.failed (chatIdOf number) err

def isSentRecord : MessageResult → Bool
  | MessageResult.sent _ _ => true
  | MessageResult.failed _ _ => false

def isFailedRecord : MessageResult → Bool
  | MessageResult.sent _ _ => false
  | MessageResult.failed _ _ => true

/-- The `results` array of the Promise.all variant (src/unnamed/part_002
line 198): one result record per validated recipient, in input order. -/
def dispatchResults (send : SendOracle) (numbers : List (List Char)) :
    List MessageResult :=
  mapWithIndex (resultOf send) 0 numbers

/-- The in-input-order view of the successfully sent records
(src/unnamed/part_002 line 200: `results.filter(r => r.status === "sent")`). -/
def sentView (send : SendOracle) (numbers : List (List Char)) :
    List MessageResult :=
  (dispatchResults send numbers).filter isSentRecord

/-- The in-input-order view of the failed records (src/unnamed/part_002
line 201: `results.filter(r => r.status === "failed")`). -/
def failedView (send : SendOracle) (numbers : List (List Char)) :
    List MessageResult :=
  (dispatchResults send numbers).filter isFailedRecord

/-- Embedding of the Promise.all dispatch of src/unnamed/part_002 lines
174-201: build one promise per recipient (with a pacing delay that does not
affect the values), await them all in input order, then filter the results
into the sent and failed lists. -/
def promiseDispatch (send : SendOracle) (numbers : List (List Char)) :
    List MessageResult × List MessageResult :=
  (sentView send numbers, failedView send numbers)

/-- Embedding of the sequential `for...of` dispatch loop of src/app.js lines
176-194, started at position `i`: try the send, push onto `sentMessages` on
success, push onto `failedMessages` and continue on error.  The third
component records the `client.sendMessage` invocations in order. -/
def sequentialDispatch (send : SendOracle) :
    Nat → List (List Char) → List MessageResult × List MessageResult × List Event
  | _, [] => ([], [], [])
  | i, number :: rest =>
    let r := sequentialDispatch send (i + 1) rest
    match send i (chatIdOf number) with
    | SendOutcome.success mid =>
      (MessageResult.sent (chatIdOf number) mid :: r.1, r.2.1,
       Event.send (chatIdOf number) :: r.2.2)
    | SendOutcome.failure err =>
      (r.1, MessageResult.failed (chatIdOf number) err :: r.2.1,
       Event.send (chatIdOf number) :: r.2.2)

/-- The 200 response built after a completed dispatch, shared verbatim by both
routes and both variants (src/app.js lines 200-211 and 313-324). -/
def mkOkResponse (validNumbers : List (List Char))
    (sentL failedL : List MessageResult) : ApiResponse :=
  ApiResponse.mk 200 (some true)
    (some (Summary.mk validNumbers.length sentL.length failedL.length))
    (some (ResultsBody.mk sentL failedL))

/-- Embedding of the `POST /send-message` handler of src/app.js lines 128-212
(after the auth middleware), with the external sends abstracted by the oracle.
Returns the response and the trace of external calls. -/
def sendMessageHandler (isWhatsappReady : Bool) (send : SendOracle)
    (numbers message : Option (List Char)) : ApiResponse × List Event :=
  if !isWhatsappReady then
    (ApiResponse.mk 503 (some false) none none, [])
  else if !jsTruthy numbers || !jsTruthy message then
    (ApiResponse.mk 400 (some false) none none, [])
  else if MAX_MESSAGE_LENGTH < (message.getD []).length then
    (ApiResponse.mk 413 none none none, [])
  else
    let validNumbers := parseNumbers numbers
    if validNumbers.length = 0 then
      (ApiResponse.mk 400 none none none, [])
    else
      let r := sequentialDispatch send 0 validNumbers
      (mkOkResponse validNumbers r.1 r.2.1, r.2.2)

/-- Embedding of the `POST /send-media` handler of src/app.js lines 215-325:
after the guards, the media is prepared exactly once inside the try block
(`fromUrl` may fail with a 500; the inline `new MessageMedia(mimetype, data)`
constructor cannot), then the sequential loop runs. -/
def sendMediaHandler (isWhatsappReady : Bool)
    (fromUrl : List Char → Except (List Char) Media) (send : SendOracle)
    (numbers caption mediaUrl mediaBase64 mimetype : Option (List Char)) :
    ApiResponse × List Event :=
  if !isWhatsappReady then
    (ApiResponse.mk 503 (some false) none none, [])
  else if !jsTruthy numbers || (!jsTruthy mediaUrl && !jsTruthy mediaBase64) then
    (ApiResponse.mk 400 (some false) none none, [])
  else
    let validNumbers := parseNumbers numbers
    if validNumbers.length = 0 then
      (ApiResponse.mk 400 none none none, [])
    else if jsTruthy mediaUrl then
      match fromUrl (mediaUrl.getD []) with
      | Except.error _ =>
        (ApiResponse.mk 500 (some false) none none, [Event.prepareMedia])
      | Except.ok _ =>
        let r := sequentialDispatch send 0 validNumbers
        (mkOkResponse validNumbers r.1 r.2.1, Event.prepareMedia :: r.2.2)
    else if jsTruthy mediaBase64 && jsTruthy mimetype then
      let _media := Media.mk (mimetype.getD []) (mediaBase64.getD [])
      let r := sequentialDispatch send 0 validNumbers
      (mkOkResponse validNumbers r.1 r.2.1, Event.prepareMedia :: r.2.2)
    else
      (ApiResponse.mk 400 (some false) none none, [])

/-- Embedding of the `POST /send-message` handler of src/unnamed/part_002
lines 132-219: identical guards, Promise.all dispatch. -/
def sendMessageHandlerV2 (isWhatsappReady : Bool) (send : SendOracle)
    (numbers message : Option (List Char)) : ApiResponse :=
  if !isWhatsappReady then
    ApiResponse.mk 503 (some false) none none
  else if !jsTruthy numbers || !jsTruthy message then
    ApiResponse.mk 400 (some false) none none
  else if MAX_MESSAGE_LENGTH < (message.getD []).length then
    ApiResponse.mk 413 none none none
  else
    let validNumbers := parseNumbers numbers
    if validNumbers.length = 0 then
      ApiResponse.mk 400 none none none
    else
      let r := promiseDispatch send validNumbers
      mkOkResponse validNumbers r.1 r.2

/-- Embedding of the `POST /send-media` handler of src/unnamed/part_002
lines 222-330: identical guards, Promise.all dispatch. -/
def sendMediaHandlerV2 (isWhatsappReady : Bool)
    (fromUrl : List Char → Except (List Char) Media) (send : SendOracle)
    (numbers caption mediaUrl mediaBase64 mimetype : Option (List Char)) :
    ApiResponse :=
  if !isWhatsappReady then
    ApiResponse.mk 503 (some false) none none
  else if !jsTruthy numbers || (!jsTruthy mediaUrl && !jsTruthy mediaBase64) then
    ApiResponse.mk 400 (some false) none none
  else
    let validNumbers := parseNumbers numbers
    if validNumbers.length = 0 then
      ApiResponse.mk 400 none none none
    else if jsTruthy mediaUrl then
      match fromUrl (mediaUrl.getD []) with
      | Except.error _ =>
        ApiResponse.mk 500 (some false) none none
      | Except.ok _ =>
        let r := promiseDispatch send validNumbers
        mkOkResponse validNumbers r.1 r.2
    else if jsTruthy mediaBase64 && jsTruthy mimetype then
      let _media := Media.mk (mimetype.getD []) (mediaBase64.getD [])
      let r := promiseDispatch send validNumbers
      mkOkResponse validNumbers r.1 r.2
    else
      ApiResponse.mk 400 (some false) none none

theorem mapWithIndex_length (f : Nat → α → β) (i : Nat) (l : List α) :
    (mapWithIndex f i l).length = l.length := by
  induction l generalizing i with
  | nil => rfl
  | cons a as ih => simp [mapWithIndex, ih]

theorem sequentialDispatch_eq (send : SendOracle) (i : Nat)
    (l : List (List Char)) :
    sequentialDispatch send i l =
      ((mapWithIndex (resultOf send) i l).filter isSentRecord,
       (mapWithIndex (resultOf send) i l).filter isFailedRecord,
       l.map (fun n => Event.send (chatIdOf n))) := by
  induction l generalizing i with
  | nil => rfl
  | cons n rest ih =>
    simp only [sequentialDispatch, mapWithIndex, List.map_cons, ih]
    cases hsend : send i (chatIdOf n) <;>
      simp [resultOf, hsend, isSentRecord, isFailedRecord, List.filter_cons]

theorem sequentialDispatch_sent (send : SendOracle) (l : List (List Char)) :
    (sequentialDispatch send 0 l).1 = sentView send l := by
  rw [sequentialDispatch_eq]
  rfl

theorem sequentialDispatch_failed (send : SendOracle) (l : List (List Char)) :
    (sequentialDispatch send 0 l).2.1 = failedView send l := by
  rw [sequentialDispatch_eq]
  rfl

theorem sequentialDispatch_events (send : SendOracle) (l : List (List Char)) :
    (sequentialDispatch send 0 l).2.2 = l.map (fun n => Event.send (chatIdOf n)) := by
  rw [sequentialDispatch_eq]

theorem filter_length_partition (l : List MessageResult) :
    (l.filter isSentRecord).length + (l.filter isFailedRecord).length = l.length := by
  induction l with
  | nil => rfl
  | cons r rest ih =>
    cases r <;> simp [List.filter_cons, isSentRecord, isFailedRecord] <;> omega

theorem sequentialDispatch_length (send : SendOracle) (l : List (List Char)) :
    (sequentialDispatch send 0 l).1.length +
      (sequentialDispatch send 0 l).2.1.length = l.length := by
  rw [sequentialDispatch_eq]
  exact (filter_length_partition _).trans (mapWithIndex_length _ _ _)

theorem promiseDispatch_length (send : SendOracle) (l : List (List Char)) :
    (promiseDispatch send l).1.length + (promiseDispatch send l).2.length =
      l.length :=
  (filter_length_partition _).trans (mapWithIndex_length _ _ _)

theorem sendMessageHandler_cases (ready : Bool) (send : SendOracle)
    (numbers message : Option (List Char)) :
    (sendMessageHandler ready send numbers message).1.summary = none ∨
    (sendMessageHandler ready send numbers message).1 =
      mkOkResponse (parseNumbers numbers)
        (sequentialDispatch send 0 (parseNumbers numbers)).1
        (sequentialDispatch send 0 (parseNumbers numbers)).2.1 := by
  simp only [sendMessageHandler]
  split
  · exact Or.inl rfl
  · split
    · exact Or.inl rfl
    · split
      · exact Or.inl rfl
      · split
        · exact Or.inl rfl
        · exact Or.inr rfl

theorem sendMediaHandler_cases (ready : Bool)
    (fromUrl : List Char → Except (List Char) Media) (send : SendOracle)
    (numbers caption mediaUrl mediaBase64 mimetype : Option (List Char)) :
    (sendMediaHandler ready fromUrl send numbers caption mediaUrl mediaBase64
        mimetype).1.summary = none ∨
    (sendMediaHandler ready fromUrl send numbers caption mediaUrl mediaBase64
        mimetype).1 =
      mkOkResponse (parseNumbers numbers)
        (sequentialDispatch send 0 (parseNumbers numbers)).1
        (sequentialDispatch send 0 (parseNumbers numbers)).2.1 := by
  simp only [sendMediaHandler]
  split
  · exact Or.inl rfl
  · split
    · exact Or.inl rfl
    · split
      · exact Or.inl rfl
      · split
        · split
          · exact Or.inl rfl
          · exact Or.inr rfl
        · split
          · exact Or.inr rfl
          · exact Or.inl rfl

theorem sendMessageHandlerV2_cases (ready : Bool) (send : SendOracle)
    (numbers message : Option (List Char)) :
    (sendMessageHandlerV2 ready send numbers message).summary = none ∨
    sendMessageHandlerV2 ready send numbers message =
      mkOkResponse (parseNumbers numbers)
        (promiseDispatch send (parseNumbers numbers)).1
        (promiseDispatch send (parseNumbers numbers)).2 := by
  simp only [sendMessageHandlerV2]
  split
  · exact Or.inl rfl
  · split
    · exact Or.inl rfl
    · split
      · exact Or.inl rfl
      · split
        · exact Or.inl rfl
        · exact Or.inr rfl

theorem sendMediaHandlerV2_cases (ready : Bool)
    (fromUrl : List Char → Except (List Char) Media) (send : SendOracle)
    (numbers caption mediaUrl mediaBase64 mimetype : Option (List Char)) :
    (sendMediaHandlerV2 ready fromUrl send numbers caption mediaUrl mediaBase64
        mimetype).summary = none ∨
    sendMediaHandlerV2 ready fromUrl send numbers caption mediaUrl mediaBase64
        mimetype =
      mkOkResponse (parseNumbers numbers)
        (promiseDispatch send (parseNumbers numbers)).1
        (promiseDispatch send (parseNumbers numbers)).2 := by
  simp only [sendMediaHandlerV2]
  split
  · exact Or.inl rfl
  · split
    · exact Or.inl rfl
    · split
      · exact Or.inl rfl
      · split
        · split
          · exact Or.inl rfl
          · exact Or.inr rfl
        · split
          · exact Or.inr rfl
          · exact Or.inl rfl

/-- Claim C2: every `DispatchSummary` produced by a completed dispatch, on
either route and in either variant, satisfies `totalSent + totalFailed =
totalRequested`, with the `sent` and `failed` lists of exactly those lengths,
where `totalRequested` is the length of the validated recipient list. -/
theorem claim_C2 (ready : Bool) (send : SendOracle)
    (fromUrl : List Char → Except (List Char) Media)
    (numbers message caption mediaUrl mediaBase64 mimetype : Option (List Char)) :
    (∀ s r, (sendMessageHandler ready send numbers message).1.summary = some s →
      (sendMessageHandler ready send numbers message).1.results = some r →
      s.total_sent + s.total_failed = s.total_requested ∧
      r.sent.length = s.total_sent ∧ r.failed.length = s.total_failed ∧
      s.total_requested = (parseNumbers numbers).length) ∧
    (∀ s r, (sendMediaHandler ready fromUrl send numbers caption mediaUrl
        mediaBase64 mimetype).1.summary = some s →
      (sendMediaHandler ready fromUrl send numbers caption mediaUrl mediaBase64
        mimetype).1.results = some r →
      s.total_sent + s.total_failed = s.total_requested ∧
      r.sent.length = s.total_sent ∧ r.failed.length = s.total_failed ∧
      s.total_requested = (parseNumbers numbers).length) ∧
    (∀ s r, (sendMessageHandlerV2 ready send numbers message).summary = some s →
      (sendMessageHandlerV2 ready send numbers message).results = some r →
      s.total_sent + s.total_failed = s.total_requested ∧
      r.sent.length = s.total_sent ∧ r.failed.length = s.total_failed ∧
      s.total_requested = (parseNumbers numbers).length) ∧
    (∀ s r, (sendMediaHandlerV2 ready fromUrl send numbers caption mediaUrl
        mediaBase64 mimetype).summary = some s →
      (sendMediaHandlerV2 ready fromUrl send numbers caption mediaUrl mediaBase64
        mimetype).results = some r →
      s.total_sent + s.total_failed = s.total_requested ∧
      r.sent.length = s.total_sent ∧ r.failed.length = s.total_failed ∧
      s.total_requested = (parseNumbers numbers).length) := by
  refine ⟨?_, ?_, ?_, ?_⟩
  · intro s r hs hr
    rcases sendMessageHandler_cases ready send numbers message with h | h
    · rw [h] at hs; exact absurd hs (by simp)
    · rw [h] at hs hr
      simp only [mkOkResponse] at hs hr
      injection hs with hs
      injection hr with hr
      subst hs; subst hr
      exact ⟨sequentialDispatch_length send _, rfl, rfl, rfl⟩
  · intro s r hs hr
    rcases sendMediaHandler_cases ready fromUrl send numbers caption mediaUrl
        mediaBase64 mimetype with h | h
    · rw [h] at hs; exact absurd hs (by simp)
    · rw [h] at hs hr
      simp only [mkOkResponse] at hs hr
      injection hs with hs
      injection hr with hr
      subst hs; subst hr
      exact ⟨sequentialDispatch_length send _, rfl, rfl, rfl⟩
  · intro s r hs hr
    rcases sendMessageHandlerV2_cases ready send numbers message with h | h
    · rw [h] at hs; exact absurd hs (by simp)
    · rw [h] at hs hr
      simp only [mkOkResponse] at hs hr
      injection hs with hs
      injection hr with hr
      subst hs; subst hr
      exact ⟨promiseDispatch_length send _, rfl, rfl, rfl⟩
  · intro s r hs hr
    rcases sendMediaHandlerV2_cases ready fromUrl send numbers caption mediaUrl
        mediaBase64 mimetype with h | h
    · rw [h] at hs; exact absurd hs (by simp)
    · rw [h] at hs hr
      simp only [mkOkResponse] at hs hr
      injection hs with hs
      injection hr with hr
      subst hs; subst hr
      exact ⟨promiseDispatch_length send _, rfl, rfl, rfl⟩

theorem claim_C2_witness :
    (sendMessageHandler true (fun _ _ => SendOutcome.success [])
        (some ['1','2','3','4','5','6','7','8','9']) (some ['h','i'])).1.summary =
      some (Summary.mk 1 1 0) ∧
    (sendMessageHandler true (fun _ _ => SendOutcome.success [])
        (some ['1','2','3','4','5','6','7','8','9']) (some ['h','i'])).1.results =
      some (ResultsBody.mk
        [MessageResult.sent (chatIdOf (countryCode ++ ['1','2','3','4','5','6','7','8','9'])) []]
        []) ∧
    ((1 : Nat) + 0 = 1 ∧
      ([MessageResult.sent (chatIdOf (countryCode ++ ['1','2','3','4','5','6','7','8','9'])) []] :
        List MessageResult).length = 1 ∧
      ([] : List MessageResult).length = 0 ∧
      1 = (parseNumbers (some ['1','2','3','4','5','6','7','8','9'])).length) :=
  ⟨by decide, by decide,
   (claim_C2 true (fun _ _ => SendOutcome.success [])
       (fun _ => Except.ok (Media.mk [] []))
       (some ['1','2','3','4','5','6','7','8','9']) (some ['h','i'])
       none none none none).1
     (Summary.mk 1 1 0)
     (ResultsBody.mk
       [MessageResult.sent (chatIdOf (countryCode ++ ['1','2','3','4','5','6','7','8','9'])) []]
       [])
     (by decide) (by decide)⟩

/-- Claim C6: a text send request whose message body exceeds the 1000
character limit is rejected with status 413 before dispatch begins, and the
external send capability is invoked zero times (empty event trace); the check
is on the request body, not per recipient. -/
theorem claim_C6 (send : SendOracle) (numbers : Option (List Char))
    (message : List Char) (hn : jsTruthy numbers = true) (hm : message ≠ [])
    (hlen : MAX_MESSAGE_LENGTH < message.length) :
    sendMessageHandler true send numbers (some message) =
      (ApiResponse.mk 413 none none none, []) := by
  have hmsg : jsTruthy (some message) = true := by
    cases message with
    | nil => exact absurd rfl hm
    | cons c cs => rfl
  simp [sendMessageHandler, hn, hmsg, hlen]

theorem claim_C6_witness :
    sendMessageHandler true (fun _ _ => SendOutcome.success [])
        (some ['1','2','3','4','5','6','7','8','9'])
        (some (List.replicate 1001 'a')) =
      (ApiResponse.mk 413 none none none, []) :=
  claim_C6 (fun _ _ => SendOutcome.success [])
    (some ['1','2','3','4','5','6','7','8','9']) (List.replicate 1001 'a')
    (by decide) (List.ne_nil_of_length_pos (by norm_num [List.length_replicate]))
    (by norm_num [MAX_MESSAGE_LENGTH, List.length_replicate])

/-- Claim C8: whenever the session gate is not ready, both message-sending
routes answer 503 and make no external send call at all (empty event trace),
for every request and every oracle. -/
theorem claim_C8 (send : SendOracle)
    (fromUrl : List Char → Except (List Char) Media)
    (numbers message caption mediaUrl mediaBase64 mimetype : Option (List Char)) :
    sendMessageHandler false send numbers message =
      (ApiResponse.mk 503 (some false) none none, []) ∧
    sendMediaHandler false fromUrl send numbers caption mediaUrl mediaBase64
        mimetype =
      (ApiResponse.mk 503 (some false) none none, []) :=
  ⟨rfl, rfl⟩

/-- Claim C9: with the same validated recipient list and the same
per-recipient send outcomes, the sequential `for...of` dispatch of src/app.js
and the Promise.all dispatch of src/unnamed/part_002 produce the same sent and
failed lists in the same order, and the two handler variants produce identical
responses on every request. -/
theorem claim_C9 (send send2 : SendOracle) (numbers : List (List Char))
    (ready : Bool) (fromUrl : List Char → Except (List Char) Media)
    (ns ms caption mediaUrl mediaBase64 mimetype : Option (List Char)) :
    (sequentialDispatch send 0 numbers).1 = (promiseDispatch send numbers).1 ∧
    (sequentialDispatch send 0 numbers).2.1 = (promiseDispatch send numbers).2 ∧
    (sendMessageHandler ready send2 ns ms).1 =
      sendMessageHandlerV2 ready send2 ns ms ∧
    (sendMediaHandler ready fromUrl send2 ns caption mediaUrl mediaBase64
        mimetype).1 =
      sendMediaHandlerV2 ready fromUrl send2 ns caption mediaUrl mediaBase64
        mimetype := by
  refine ⟨sequentialDispatch_sent send numbers,
    sequentialDispatch_failed send numbers, ?_, ?_⟩
  · simp only [sendMessageHandler, sendMessageHandlerV2]
    split
    · rfl
    · split
      · rfl
      · split
        · rfl
        · split
          · rfl
          · show mkOkResponse _ _ _ = mkOkResponse _ _ _
            rw [sequentialDispatch_sent, sequentialDispatch_failed]
            rfl
  · simp only [sendMediaHandler, sendMediaHandlerV2]
    split
    · rfl
    · split
      · rfl
      · split
        · rfl
        · split
          · split
            · rfl
            · show mkOkResponse _ _ _ = mkOkResponse _ _ _
              rw [sequentialDispatch_sent, sequentialDispatch_failed]
              rfl
          · split
            · show mkOkResponse _ _ _ = mkOkResponse _ _ _
              rw [sequentialDispatch_sent, sequentialDispatch_failed]
              rfl
            · rfl

/-- Claim C1: over a non-empty validated recipient list, when the send
capability fails for some recipients the handler records every failing
recipient in the failed list and continues through the whole list: the
response is 200 with success=true, its sent and failed lists are the
order-preserving filtered views of the per-recipient results in input order,
they partition the requested recipients, and every failing recipient appears
in the failed list.  The same holds for the media route once the media is
resolved. -/
theorem claim_C1 (send : SendOracle)
    (fromUrl : List Char → Except (List Char) Media)
    (numbers : Option (List Char)) (message : List Char)
    (caption mediaUrl mediaBase64 mimetype : Option (List Char)) (m : Media)
    (hn : jsTruthy numbers = true) (hm : message ≠ [])
    (hlen : message.length ≤ MAX_MESSAGE_LENGTH)
    (hv : parseNumbers numbers ≠ [])
    (hfail : ∃ res ∈ dispatchResults send (parseNumbers numbers),
      isFailedRecord res = true) :
    ((sendMessageHandler true send numbers (some message)).1.status = 200 ∧
     (sendMessageHandler true send numbers (some message)).1.success = some true ∧
     (sendMessageHandler true send numbers (some message)).1.results =
       some (ResultsBody.mk (sentView send (parseNumbers numbers))
         (failedView send (parseNumbers numbers))) ∧
     (sentView send (parseNumbers numbers)).length +
         (failedView send (parseNumbers numbers)).length =
       (parseNumbers numbers).length ∧
     (∀ res ∈ dispatchResults send (parseNumbers numbers),
        isFailedRecord res = true →
        res ∈ failedView send (parseNumbers numbers)) ∧
     failedView send (parseNumbers numbers) ≠ []) ∧
    (jsTruthy mediaUrl = true → fromUrl (mediaUrl.getD []) = Except.ok m →
      ((sendMediaHandler true fromUrl send numbers caption mediaUrl mediaBase64
          mimetype).1.status = 200 ∧
       (sendMediaHandler true fromUrl send numbers caption mediaUrl mediaBase64
          mimetype).1.success = some true ∧
       (sendMediaHandler true fromUrl send numbers caption mediaUrl mediaBase64
          mimetype).1.results =
         some (ResultsBody.mk (sentView send (parseNumbers numbers))
           (failedView send (parseNumbers numbers))))) := by
  have hlen0 : ¬ ((parseNumbers numbers).length = 0) := by
    simpa [List.length_eq_zero] using hv
  have hmsg : jsTruthy (some message) = true := by
    cases message with
    | nil => exact absurd rfl hm
    | cons c cs => rfl
  have hmem : ∀ res ∈ dispatchResults send (parseNumbers numbers),
      isFailedRecord res = true →
      res ∈ failedView send (parseNumbers numbers) := by
    intro res hres hfr
    exact List.mem_filter.mpr ⟨hres, hfr⟩
  have hfne : failedView send (parseNumbers numbers) ≠ [] := by
    obtain ⟨res, hres, hfr⟩ := hfail
    exact List.ne_nil_of_mem (hmem res hres hfr)
  constructor
  · have hresp : (sendMessageHandler true send numbers (some message)).1 =
        mkOkResponse (parseNumbers numbers)
          (sequentialDispatch send 0 (parseNumbers numbers)).1
          (sequentialDispatch send 0 (parseNumbers numbers)).2.1 := by
      simp [sendMessageHandler, hn, hmsg, Nat.not_lt.mpr hlen, hlen0]
    rw [hresp]
    refine ⟨rfl, rfl, ?_, ?_, hmem, hfne⟩
    · simp [mkOkResponse, sequentialDispatch_sent, sequentialDispatch_failed]
    · rw [← sequentialDispatch_sent send, ← sequentialDispatch_failed send]
      exact sequentialDispatch_length send _
  · intro hurl hok
    have hresp : (sendMediaHandler true fromUrl send numbers caption mediaUrl
        mediaBase64 mimetype).1 =
        mkOkResponse (parseNumbers numbers)
          (sequentialDispatch send 0 (parseNumbers numbers)).1
          (sequentialDispatch send 0 (parseNumbers numbers)).2.1 := by
      simp [sendMediaHandler, hn, hurl, hok, hlen0]
    rw [hresp]
    refine ⟨rfl, rfl, ?_⟩
    simp [mkOkResponse, sequentialDispatch_sent, sequentialDispatch_failed]

/-- A sample oracle for the witnesses: the send at position 0 fails, every
other send succeeds. -/
def sampleFailingSend : SendOracle := fun i _ =>
  if i = 0 then SendOutcome.failure ['E'] else SendOutcome.success ['M']

/-- A sample `numbers` field holding two valid nine-digit segments. -/
def sampleNumbersInput : List Char :=
  ['1','2','3','4','5','6','7','8','9',',','9','8','7','6','5','4','3','2','1']

theorem claim_C1_witness :
    (∃ res ∈ dispatchResults sampleFailingSend
        (parseNumbers (some sampleNumbersInput)), isFailedRecord res = true) ∧
    (sendMessageHandler true sampleFailingSend (some sampleNumbersInput)
        (some ['h','i'])).1.status = 200 ∧
    (sendMessageHandler true sampleFailingSend (some sampleNumbersInput)
        (some ['h','i'])).1.success = some true ∧
    failedView sampleFailingSend (parseNumbers (some sampleNumbersInput)) ≠ [] :=
  ⟨by decide,
   (claim_C1 sampleFailingSend (fun _ => Except.ok (Media.mk [] []))
       (some sampleNumbersInput) ['h','i'] none none none none (Media.mk [] [])
       (by decide) (by decide) (by decide) (by decide) (by decide)).1.1,
   (claim_C1 sampleFailingSend (fun _ => Except.ok (Media.mk [] []))
       (some sampleNumbersInput) ['h','i'] none none none none (Media.mk [] [])
       (by decide) (by decide) (by decide) (by decide) (by decide)).1.2.1,
   (claim_C1 sampleFailingSend (fun _ => Except.ok (Media.mk [] []))
       (some sampleNumbersInput) ['h','i'] none none none none (Media.mk [] [])
       (by decide) (by decide) (by decide) (by decide) (by decide)).1.2.2.2.2.2⟩

/-- Claim C5: on the media route the media payload is prepared exactly once,
before the per-recipient loop and regardless of the recipient count: the
event trace is one `prepareMedia` followed by exactly the per-recipient send
events.  When URL resolution fails the whole request is answered with a
single 500 and the trace is the lone `prepareMedia`: zero sends are
attempted. -/
theorem claim_C5 (send : SendOracle)
    (fromUrl : List Char → Except (List Char) Media)
    (numbers caption mediaUrl mediaBase64 mimetype : Option (List Char))
    (hn : jsTruthy numbers = true) (hv : parseNumbers numbers ≠ []) :
    (∀ m, jsTruthy mediaUrl = true → fromUrl (mediaUrl.getD []) = Except.ok m →
      (sendMediaHandler true fromUrl send numbers caption mediaUrl mediaBase64
          mimetype).2 =
        Event.prepareMedia ::
          (parseNumbers numbers).map (fun n => Event.send (chatIdOf n))) ∧
    (∀ e, jsTruthy mediaUrl = true →
      fromUrl (mediaUrl.getD []) = Except.error e →
      sendMediaHandler true fromUrl send numbers caption mediaUrl mediaBase64
          mimetype =
        (ApiResponse.mk 500 (some false) none none, [Event.prepareMedia])) ∧
    (jsTruthy mediaUrl = false → jsTruthy mediaBase64 = true →
      jsTruthy mimetype = true →
      (sendMediaHandler true fromUrl send numbers caption mediaUrl mediaBase64
          mimetype).2 =
        Event.prepareMedia ::
          (parseNumbers numbers).map (fun n => Event.send (chatIdOf n))) := by
  have hlen0 : ¬ ((parseNumbers numbers).length = 0) := by
    simpa [List.length_eq_zero] using hv
  refine ⟨?_, ?_, ?_⟩
  · intro m hurl hok
    simp [sendMediaHandler, hn, hurl, hok, hlen0, sequentialDispatch_events]
  · intro e hurl herr
    simp [sendMediaHandler, hn, hurl, herr, hlen0]
  · intro hurl hb64 hmt
    simp [sendMediaHandler, hn, hurl, hb64, hmt, hlen0,
      sequentialDispatch_events]

theorem claim_C5_witness :
    (sendMediaHandler true (fun _ => Except.ok (Media.mk [] []))
        (fun _ _ => SendOutcome.success []) (some sampleNumbersInput) none
        (some ['u']) none none).2 =
      Event.prepareMedia ::
        (parseNumbers (some sampleNumbersInput)).map
          (fun n => Event.send (chatIdOf n)) ∧
    sendMediaHandler true (fun _ => Except.error ['x'])
        (fun _ _ => SendOutcome.success []) (some sampleNumbersInput) none
        (some ['u']) none none =
      (ApiResponse.mk 500 (some false) none none, [Event.prepareMedia]) :=
  ⟨(claim_C5 (fun _ _ => SendOutcome.success [])
       (fun _ => Except.ok (Media.mk [] [])) (some sampleNumbersInput) none
       (some ['u']) none none (by decide) (by decide)).1
     (Media.mk [] []) (by decide) rfl,
   (claim_C5 (fun _ _ => SendOutcome.success [])
       (fun _ => Except.error ['x']) (some sampleNumbersInput) none
       (some ['u']) none none (by decide) (by decide)).2.1
     ['x'] (by decide) rfl⟩

/-- Claim C7 counterexample: for the configured secret "s" (non-empty, as the
startup guard guarantees) and the empty-string authorization header, the
header has no second space-separated segment — the token segment is missing —
yet the middleware answers 403, not the 401 the claim requires: the JavaScript
`authHeader && authHeader.split(" ")[1]` short-circuits on the falsy empty
string, so the empty string itself is compared against the secret. -/
theorem claim_C7_counterexample :
    (splitOnSpace []).get? 1 = none ∧
    authenticateToken ['s'] (some []) ≠ AuthResult.reject401 ∧
    authenticateToken ['s'] (some []) = AuthResult.reject403 := by
  decide

/-- Claim C7 (amended): with a non-empty configured secret, the middleware
rejects 401 when the header is missing or when a NON-EMPTY header has no
second space-separated segment; the empty-string header is instead compared
as the token itself and rejected 403; a present second segment different from
the secret gives 403 and the second segment equal to the secret is allowed. -/
theorem claim_C7_amended (apiToken : List Char) (hne : apiToken ≠ []) :
    authenticateToken apiToken none = AuthResult.reject401 ∧
    authenticateToken apiToken (some []) = AuthResult.reject403 ∧
    (∀ hdr : List Char, hdr ≠ [] → (splitOnSpace hdr).get? 1 = none →
      authenticateToken apiToken (some hdr) = AuthResult.reject401) ∧
    (∀ hdr t, (splitOnSpace hdr).get? 1 = some t → t ≠ apiToken →
      authenticateToken apiToken (some hdr) = AuthResult.reject403) ∧
    (∀ hdr, (splitOnSpace hdr).get? 1 = some apiToken →
      authenticateToken apiToken (some hdr) = AuthResult.allow) := by
  have hemp : authenticateToken apiToken (some []) = AuthResult.reject403 := by
    simp [authenticateToken, tokenOf, Ne.symm hne]
  refine ⟨rfl, hemp, ?_, ?_, ?_⟩
  · intro hdr hdne hseg
    rw [List.get?_eq_getElem?] at hseg
    simp [authenticateToken, tokenOf, hdne, hseg]
  · intro hdr t hseg htne
    have hdne : hdr ≠ [] := by
      intro h
      subst h
      simp [splitOnSpace, splitOnChar] at hseg
    rw [List.get?_eq_getElem?] at hseg
    simp [authenticateToken, tokenOf, hdne, hseg, htne]
  · intro hdr hseg
    have hdne : hdr ≠ [] := by
      intro h
      subst h
      simp [splitOnSpace, splitOnChar] at hseg
    rw [List.get?_eq_getElem?] at hseg
    simp [authenticateToken, tokenOf, hdne, hseg]

theorem claim_C7_amended_witness :
    (['s'] : List Char) ≠ [] ∧
    authenticateToken ['s'] none = AuthResult.reject401 ∧
    authenticateToken ['s'] (some ['B']) = AuthResult.reject401 ∧
    authenticateToken ['s'] (some ['B', ' ', 'x']) = AuthResult.reject403 ∧
    authenticateToken ['s'] (some ['B', ' ', 's']) = AuthResult.allow :=
  ⟨by decide,
   (claim_C7_amended ['s'] (by decide)).1,
   (claim_C7_amended ['s'] (by decide)).2.2.1 ['B'] (by decide) (by decide),
   (claim_C7_amended ['s'] (by decide)).2.2.2.1 ['B', ' ', 'x'] ['x'] (by decide)
     (by decide),
   (claim_C7_amended ['s'] (by decide)).2.2.2.2 ['B', ' ', 's'] (by decide)⟩

/-- Claim C10 counterexample: the empty-string header value contains no space,
yet it is NOT rejected with 401 (with the non-empty configured secret "s" it
is rejected 403), refuting the claim's universal statement about no-space
header values. -/
theorem claim_C10_counterexample :
    ¬ (' ' ∈ ([] : List Char)) ∧
    authenticateToken ['s'] (some []) ≠ AuthResult.reject401 := by
  decide

/-- Claim C10 (amended): the middleware never validates the scheme keyword:
any header whose second space-separated word equals the configured secret is
allowed no matter what comes first; a NON-EMPTY header value containing no
space is rejected 401 because the token segment is absent; the empty header
value is instead rejected 403 (given a non-empty secret). -/
theorem claim_C10_amended (apiToken : List Char) (hne : apiToken ≠ []) :
    (∀ hdr : List Char, (splitOnSpace hdr).get? 1 = some apiToken →
      authenticateToken apiToken (some hdr) = AuthResult.allow) ∧
    (∀ hdr : List Char, hdr ≠ [] → ' ' ∉ hdr →
      authenticateToken apiToken (some hdr) = AuthResult.reject401) ∧
    authenticateToken apiToken (some []) = AuthResult.reject403 := by
  refine ⟨?_, ?_, ?_⟩
  · intro hdr hseg
    have hdne : hdr ≠ [] := by
      intro h
      subst h
      simp [splitOnSpace, splitOnChar] at hseg
    rw [List.get?_eq_getElem?] at hseg
    simp [authenticateToken, tokenOf, hdne, hseg]
  · intro hdr hdne hsp
    have hsplit : splitOnSpace hdr = [hdr] := splitOnChar_of_not_mem hsp
    simp [authenticateToken, tokenOf, hdne, hsplit]
  · simp [authenticateToken, tokenOf, Ne.symm hne]

theorem claim_C10_amended_witness :
    authenticateToken ['s'] (some ['B', 'x', ' ', 's']) = AuthResult.allow ∧
    authenticateToken ['s'] (some ['s']) = AuthResult.reject401 ∧
    authenticateToken ['s'] (some []) = AuthResult.reject403 :=
  ⟨(claim_C10_amended ['s'] (by decide)).1 ['B', 'x', ' ', 's'] (by decide),
   (claim_C10_amended ['s'] (by decide)).2.1 ['s'] (by decide) (by decide),
   (claim_C10_amended ['s'] (by decide)).2.2⟩

end WhatsappApi
